import Mathlib

/-!
Shallow embedding of `src/startup_log.py` (the `BlenderLauncher` class of the
tk-blender repository) and proofs about its behaviour.

The host plugin framework (`sgtk`, `SoftwareLauncher`, `SoftwareVersion`,
`LaunchInformation`, `self._glob_and_match`, `self._is_supported`,
`self.disk_location`, `self.engine_name`, `self.context`, the logger) is an
external collaborator: its data reaching the launcher is modelled as fields of
a `Host` record, and `_glob_and_match` / `_is_supported` as function-valued
fields.  Python standard-library functions used by the source
(`os.path.join`, `os.path.expanduser`, `os.path.expandvars`, `str.replace`,
`os.environ.get`) are embedded as executable Lean functions over an explicit
environment modelled as an association list.

I/O effects of `prepare_launch` (writing the temp script file, `os.chmod`,
spawning `osascript`) are outside the pure embedding; the data they act on
(the script lines) is returned in the result record instead.
-/

namespace TkBlender

/-- A process environment, as an ordered association list of
variable-name/value pairs (Python `os.environ` viewed as a mapping). -/
abbrev Env := List (String × String)

/-- `os.environ.get(k)` / `dict.get(k)`: first binding of `k`, if any. -/
def envGet : Env → String → Option String
  | [], _ => none
  | (k, v) :: rest, key => if k == key then some v else envGet rest key

/-- Python truthiness of an `os.environ.get` result: `None` and the empty
string are falsy, any non-empty string is truthy. -/
def optFalsy : Option String → Bool
  | none => true
  | some s => s == ""

/-- Python `str.replace(old, new)` on character lists, with explicit fuel so
that the recursion is structural (fuel `≥` the list length always suffices,
since every step consumes at least one character).  Scans left to right; at
each position, if `old` is a non-empty prefix, emits `new` and skips past the
match, otherwise keeps the character.  (Python's behaviour for an empty `old`,
inserting `new` between characters, is not reproduced — the source only calls
`replace` with the non-empty needles `"` and `\`.) -/
def pyReplaceAux (old new : List Char) : Nat → List Char → List Char
  | _, [] => []
  | 0, l => l
  | fuel + 1, c :: rest =>
    if !old.isEmpty && old.isPrefixOf (c :: rest) then
      new ++ pyReplaceAux old new fuel ((c :: rest).drop old.length)
    else
      c :: pyReplaceAux old new fuel rest

/-- Python `s.replace(old, new)` on strings. -/
def pyReplace (s old new : String) : String :=
  ⟨pyReplaceAux old.data new.data s.data.length s.data⟩

/-- Whether a path string begins with `/` (POSIX absolute path test used by
`os.path.join`). -/
def startsWithSlash (b : String) : Bool :=
  match b.data with
  | '/' :: _ => true
  | _ => false

/-- Whether a path string ends with `/`. -/
def endsWithSlash (a : String) : Bool :=
  match a.data.getLast? with
  | some '/' => true
  | _ => false

/-- POSIX `os.path.join(a, b)` for two components: an absolute `b` discards
`a`; otherwise the parts are joined with a single `/` unless `a` is empty or
already ends in `/`. -/
def os_path_join (a b : String) : String :=
  if startsWithSlash b then b
  else if a == "" || endsWithSlash a then a ++ b
  else a ++ "/" ++ b

/-- `os.path.join(a, b, c)` = `join(join(a, b), c)`. -/
def os_path_join3 (a b c : String) : String :=
  os_path_join (os_path_join a b) c

/-- A character usable in a `$NAME` environment reference in
`os.path.expandvars`: ASCII letters, digits and underscore. -/
def isIdentChar (c : Char) : Bool :=
  c.isAlpha || c.isDigit || c == '_'

/-- `os.path.expandvars` on character lists, with structural fuel (fuel `≥`
the list length suffices).  A `$` followed by identifier characters is
replaced by the value of that variable in the environment; a reference to an
unset variable is left literally in place; a `$` not followed by an
identifier character is kept as-is.  (The `\x7b`-brace `$\x7bNAME\x7d` form
of the Python function is not modelled: the source's templates do not use
it.) -/
def expandvarsAux (env : Env) : Nat → List Char → List Char
  | _, [] => []
  | 0, l => l
  | fuel + 1, c :: rest =>
    if c = '$' then
      if (rest.takeWhile isIdentChar).isEmpty then
        '$' :: expandvarsAux env fuel rest
      else
        match envGet env ⟨rest.takeWhile isIdentChar⟩ with
        | some v =>
          v.data ++
            expandvarsAux env fuel
              (rest.drop (rest.takeWhile isIdentChar).length)
        | none =>
          '$' :: (rest.takeWhile isIdentChar ++
            expandvarsAux env fuel
              (rest.drop (rest.takeWhile isIdentChar).length))
    else c :: expandvarsAux env fuel rest

/-- `os.path.expandvars(s)` over the ambient environment. -/
def expandvars (env : Env) (s : String) : String :=
  ⟨expandvarsAux env s.data.length s.data⟩

/-- `os.path.expanduser(s)`: a path not starting with `~` is returned
unchanged; a leading lone `~` or `~/` is replaced by the `HOME` environment
value when set.  (The `~user` form of the Python function is not modelled:
the source's templates contain no `~` at all, so no theorem depends on this
branch.) -/
def expanduser (env : Env) (s : String) : String :=
  if s.data.head? = some '~' then
    match envGet env "HOME" with
    | none => s
    | some home =>
      if s.data.tail.head? = some '/' || s.data.tail.isEmpty then
        home ++ ⟨s.data.tail⟩
      else s
  else s

/-- `sgtk.platform.SoftwareVersion`: one discovered, version-tagged,
path-tagged executable record, as constructed by `_find_software`. -/
structure SoftwareVersion where
  version : String
  product : String
  path : String
  icon : String
  args : List String
  deriving Repr, DecidableEq

/-- `sgtk.platform.LaunchInformation`: the launch descriptor returned by
`prepare_launch`.  The three positional constructor arguments (path, args,
environment) are each optional. -/
structure LaunchInformation where
  path : Option String
  args : Option String
  environ : Option Env
  deriving Repr, DecidableEq

/-- Host-framework and interpreter context reaching the launcher from
outside the source file: `self.disk_location`, `self.engine_name`,
`sgtk.context.serialize(self.context)`, `sgtk.get_sgtk_module_path()`,
`sys.executable`, `sys.platform`, and the base-class helpers
`self._glob_and_match` (template ↦ list of (path, extracted components)) and
`self._is_supported` (candidate ↦ (supported?, reason)). -/
structure Host where
  disk_location : String
  engine_name : String
  serialized_context : String
  sgtk_module_path : String
  sys_executable : String
  sys_platform : String
  glob_and_match : String → List (String × List (String × String))
  is_supported : SoftwareVersion → Bool × String

/-- `BlenderLauncher.minimum_supported_version`. -/
def minimum_supported_version : String := "2.8"

/-- `BlenderLauncher.EXECUTABLE_TEMPLATES`: path templates keyed by
platform; only `darwin` has entries. -/
def EXECUTABLE_TEMPLATES : List (String × List String) :=
  [("darwin",
    ["$BLENDER_BIN_DIR/Blender {version}",
     "/Applications/Blender{version}.app/Contents/MacOS/Blender"])]

/-- `self.EXECUTABLE_TEMPLATES.get(sys.platform, [])`. -/
def templates_for (platform : String) : List String :=
  match EXECUTABLE_TEMPLATES.lookup platform with
  | some ts => ts
  | none => []

/-- `BlenderLauncher._icon_from_engine`. -/
def icon_from_engine (host : Host) : String :=
  os_path_join host.disk_location "icon_256.png"

/-- The candidate argument list of `_find_software`: `args = []` followed by
`args.append(extra_args)` when the `SGTK_BLENDER_CMD_EXTRA_ARGS` value is
truthy (set and non-empty). -/
def argsFromExtra (extra_args : Option String) : List String :=
  if optFalsy extra_args then [] else [extra_args.getD ""]

/-- The `SoftwareVersion(...)` constructed for one `(executable_path,
key_dict)` match inside `_find_software`: the version defaults to a single
space when the component mapping has no `"version"` key
(`key_dict.get("version", " ")`). -/
def processMatch (host : Host) (extra_args : Option String)
    (executable_path : String) (key_dict : List (String × String)) :
    SoftwareVersion :=
  { version := (envGet key_dict "version").getD " "
    product := "Blender"
    path := executable_path
    icon := icon_from_engine host
    args := argsFromExtra extra_args }

/-- Expansion applied to one template inside `_find_software`:
`os.path.expanduser` then `os.path.expandvars`. -/
def expandTemplate (env : Env) (t : String) : String :=
  expandvars env (expanduser env t)

/-- `BlenderLauncher._find_software`: for each template of the current
platform (in declaration order), expand user/environment references, glob
and match, and append one `SoftwareVersion` per match. -/
def find_software (host : Host) (ambient : Env) : List SoftwareVersion :=
  let executable_templates := templates_for host.sys_platform
  let extra_args := envGet ambient "SGTK_BLENDER_CMD_EXTRA_ARGS"
  executable_templates.foldl
    (fun sw_versions t =>
      sw_versions ++
        (host.glob_and_match (expandTemplate ambient t)).map
          (fun m => processMatch host extra_args m.1 m.2))
    []

/-- The accumulation loop of `scan_software`: keep, in order, exactly the
candidates the support predicate accepts. -/
def scanLoop (is_supported : SoftwareVersion → Bool × String)
    (candidates : List SoftwareVersion) : List SoftwareVersion :=
  candidates.foldl
    (fun supported_sw_versions sw_version =>
      if (is_supported sw_version).1 then supported_sw_versions ++ [sw_version]
      else supported_sw_versions)
    []

/-- `BlenderLauncher.scan_software`. -/
def scan_software (host : Host) (ambient : Env) : List SoftwareVersion :=
  scanLoop host.is_supported (find_software host ambient)

/-- `scripts_path` computed at the top of `prepare_launch`:
`os.path.join(self.disk_location, "resources", "scripts")`. -/
def scripts_path (host : Host) : String :=
  os_path_join3 host.disk_location "resources" "scripts"

/-- `startup_path` computed in `prepare_launch`:
`os.path.join(scripts_path, "startup", "Shotgun_menu.py")`. -/
def startup_path (host : Host) : String :=
  os_path_join3 (scripts_path host) "startup" "Shotgun_menu.py"

/-- The `required_env` dictionary built by `prepare_launch`, in insertion
order: the user-scripts directory always; `PYSIDE2_PYTHONPATH` only when
`os.environ.get("PYSIDE2_PYTHONPATH")` is falsy (unset or empty); then the
module path and interpreter path with backslashes replaced by forward
slashes, the bootstrap script path, the engine identifier and the serialized
context, always; finally the file to open when one was passed. -/
def build_required_env (host : Host) (ambient : Env)
    (file_to_open : Option String) : Env :=
  [("BLENDER_USER_SCRIPTS", scripts_path host)]
  ++ (if optFalsy (envGet ambient "PYSIDE2_PYTHONPATH") then
        [("PYSIDE2_PYTHONPATH", os_path_join3 host.disk_location "python" "ext")]
      else [])
  ++ [("SGTK_MODULE_PATH", pyReplace host.sgtk_module_path "\\" "/"),
      ("SGTK_BLENDER_ENGINE_STARTUP",
        os_path_join3 host.disk_location "startup" "bootstrap.py"),
      ("SGTK_BLENDER_ENGINE_PYTHON", pyReplace host.sys_executable "\\" "/"),
      ("SGTK_ENGINE", host.engine_name),
      ("SGTK_CONTEXT", host.serialized_context)]
  ++ (match file_to_open with
      | some f => [("SGTK_FILE_TO_OPEN", f)]
      | none => [])

/-- One `export KEY="value"` line of the generated script, with each literal
double quote of the value escaped as backslash-quote
(`val.replace('"', '\\"')`), and a trailing newline. -/
def exportLine (kv : String × String) : String :=
  "export " ++ kv.1 ++ "=\"" ++ pyReplace kv.2 "\"" "\\\"" ++ "\"\n"

/-- `shell_script_lines` as accumulated by `prepare_launch`: the shebang and
a fixed comment line, then one export line appended per `required_env` item
(insertion order), then the line invoking the double-quoted executable with
the raw argument string, then the pause line. -/
def shell_script_lines (required_env : Env) (exec_path args : String) :
    List String :=
  let l := ["#!/bin/bash\n",
            "# Auto-generated script to launch Blender in a Terminal\n"]
  let l := required_env.foldl (fun acc kv => acc ++ [exportLine kv]) l
  let l := l ++ ["\"" ++ exec_path ++ "\" " ++ args ++ "\n"]
  l ++ ["read -p \"Press [Enter] to close this window...\"\n"]

/-- Everything observable about one `prepare_launch` call: the returned
`LaunchInformation`, the argument string after the startup-script append, the
`required_env` mapping, the generated script lines, and the ambient process
environment as it stands when the call returns. -/
structure PrepareLaunchResult where
  info : LaunchInformation
  args : String
  required_env : Env
  script_lines : List String
  ambient_after : Env
  deriving Repr

/-- `BlenderLauncher.prepare_launch`.  The Python body reads `os.environ`
(for `PYSIDE2_PYTHONPATH`) but never assigns into it: every computed variable
goes into the local `required_env` dictionary embedded in the script, so the
ambient environment after the call is the one before it.  Writing the temp
file, `os.chmod` and the `osascript` spawn are I/O outside the embedding;
their input data is the returned `script_lines`.  The returned descriptor is
`LaunchInformation(None, None, None)`. -/
def prepare_launch (host : Host) (ambient : Env) (exec_path args : String)
    (file_to_open : Option String := none) : PrepareLaunchResult :=
  let args := args ++ ("-P " ++ startup_path host)
  let required_env := build_required_env host ambient file_to_open
  { info := { path := none, args := none, environ := none }
    args := args
    required_env := required_env
    script_lines := shell_script_lines required_env exec_path args
    ambient_after := ambient }

/-- Lexicographic character comparison on character lists (ties recurse,
otherwise the code points decide).  Used to instantiate the external
version-comparison collaborator of the support filter, which the spec
describes as "purely lexical/numeric-string based against a floor value". -/
def verLEList : List Char → List Char → Bool
  | [], _ => true
  | _ :: _, [] => false
  | a :: as, b :: bs =>
    if a == b then verLEList as bs else decide (a.toNat < b.toNat)

/-- `verLE a b`: the version string `a` compares at or below `b`. -/
def verLE (a b : String) : Bool :=
  verLEList a.data b.data

/-- A concrete instantiation of the external `_is_supported` collaborator:
accept exactly the candidates whose version is at or above the
`minimum_supported_version` floor. -/
def floorSupport (sw_version : SoftwareVersion) : Bool × String :=
  (verLE minimum_supported_version sw_version.version,
   "below the minimum supported version")

/-- A discovered candidate carrying only a version, for concrete support
filtering examples. -/
def svOf (v : String) : SoftwareVersion :=
  { version := v, product := "Blender", path := "/p", icon := "/i", args := [] }

/-- The script body as the spec's words describe it (shebang line, export
lines, invocation line, pause line — "and nothing else").  This definition
follows the SPEC, not the source, so that the two can be compared; the
source-derived body is `shell_script_lines`. -/
def claimedScriptBody (required_env : Env) (exec_path args : String) :
    List String :=
  ["#!/bin/bash\n"]
  ++ required_env.map exportLine
  ++ ["\"" ++ exec_path ++ "\" " ++ args ++ "\n",
      "read -p \"Press [Enter] to close this window...\"\n"]

/-- A concrete host on a platform with no registered templates. -/
def testHostLinux : Host :=
  { disk_location := "/dl", engine_name := "tk-blender",
    serialized_context := "ctx", sgtk_module_path := "/sgtk",
    sys_executable := "/usr/bin/python", sys_platform := "linux",
    glob_and_match := fun _ => [], is_supported := fun _ => (true, "") }

/-- A concrete darwin host whose filesystem glob finds nothing. -/
def testHostDarwin : Host :=
  { disk_location := "/dl", engine_name := "tk-blender",
    serialized_context := "ctx", sgtk_module_path := "/sgtk",
    sys_executable := "/usr/bin/python", sys_platform := "darwin",
    glob_and_match := fun _ => [], is_supported := fun _ => (true, "") }

/-- A concrete darwin host whose filesystem glob finds one match for the
`/Applications` template, with an empty extracted-component mapping. -/
def testHostDarwinMatch : Host :=
  { disk_location := "/dl", engine_name := "tk-blender",
    serialized_context := "ctx", sgtk_module_path := "/sgtk",
    sys_executable := "/usr/bin/python", sys_platform := "darwin",
    glob_and_match := fun t =>
      if t == "/Applications/Blender{version}.app/Contents/MacOS/Blender" then
        [("/Applications/Blender.app/Contents/MacOS/Blender", [])]
      else [],
    is_supported := fun _ => (true, "") }

/-! ## Helper lemmas -/

/-- The `scan_software` accumulation loop, started from any accumulator,
appends exactly the accepted candidates in order. -/
theorem scanLoop_go (p : SoftwareVersion → Bool × String)
    (l : List SoftwareVersion) (acc : List SoftwareVersion) :
    l.foldl
        (fun supported sw => if (p sw).1 then supported ++ [sw] else supported)
        acc
      = acc ++ l.filter (fun v => (p v).1) := by
  induction l generalizing acc with
  | nil => simp
  | cons v rest ih =>
    by_cases h : (p v).1 <;> simp [List.filter_cons, h, ih]

/-- Folding "append one mapped element" over a list from any initial list is
the initial list followed by the map. -/
theorem foldl_append_map {α β : Type} (f : α → β) (l : List α)
    (init : List β) :
    l.foldl (fun acc x => acc ++ [f x]) init = init ++ l.map f := by
  induction l generalizing init with
  | nil => simp
  | cons x rest ih => simp [ih]

/-- Replacing the quote character: each `"` of the input becomes `\"`, every
other character is kept, character by character. -/
theorem pyReplaceAux_quote (fuel : Nat) (l : List Char)
    (h : l.length ≤ fuel) :
    pyReplaceAux ['\"'] ['\\', '\"'] fuel l
      = l.flatMap (fun c => if c = '\"' then ['\\', '\"'] else [c]) := by
  induction fuel generalizing l with
  | zero =>
    cases l with
    | nil => rfl
    | cons c rest => simp at h
  | succ fuel ih =>
    cases l with
    | nil => rfl
    | cons c rest =>
      have hrest := ih rest (by simpa using Nat.le_of_succ_le_succ h)
      by_cases hc : c = '\"'
      · simp [pyReplaceAux, List.isPrefixOf, hc, hrest]
      · simp [pyReplaceAux, List.isPrefixOf, hc, Ne.symm hc, hrest]

/-- A character list with no `$` passes through `expandvarsAux` unchanged,
whatever the fuel and environment. -/
theorem expandvarsAux_dollarFree (env : Env) (fuel : Nat) (l : List Char)
    (h : ∀ c ∈ l, c ≠ '$') : expandvarsAux env fuel l = l := by
  induction fuel generalizing l with
  | zero => cases l <;> rfl
  | succ fuel ih =>
    cases l with
    | nil => rfl
    | cons c rest =>
      have hc : c ≠ '$' := h c (by simp)
      simp [expandvarsAux, hc, ih rest (fun d hd => h d (by simp [hd]))]

/-- One unfolding step of `expandvarsAux` on a non-empty input. -/
theorem expandvarsAux_step (env : Env) (fuel : Nat) (c : Char)
    (rest : List Char) :
    expandvarsAux env (fuel + 1) (c :: rest)
      = if c = '$' then
          if (rest.takeWhile isIdentChar).isEmpty then
            '$' :: expandvarsAux env fuel rest
          else
            match envGet env ⟨rest.takeWhile isIdentChar⟩ with
            | some v =>
              v.data ++
                expandvarsAux env fuel
                  (rest.drop (rest.takeWhile isIdentChar).length)
            | none =>
              '$' :: (rest.takeWhile isIdentChar ++
                expandvarsAux env fuel
                  (rest.drop (rest.takeWhile isIdentChar).length))
        else c :: expandvarsAux env fuel rest := rfl

/-- When `BLENDER_BIN_DIR` is unset, the first darwin template expands to
itself: the `$BLENDER_BIN_DIR` reference is left literally in place. -/
theorem expandTemplate_unset_blender_bin (ambient : Env)
    (h : envGet ambient "BLENDER_BIN_DIR" = none) :
    expandTemplate ambient "$BLENDER_BIN_DIR/Blender {version}"
      = "$BLENDER_BIN_DIR/Blender {version}" := by
  have hu : expanduser ambient "$BLENDER_BIN_DIR/Blender {version}"
      = "$BLENDER_BIN_DIR/Blender {version}" := by
    unfold expanduser
    rw [if_neg (by decide)]
  unfold expandTemplate
  rw [hu]
  unfold expandvars
  have elen : ("$BLENDER_BIN_DIR/Blender {version}" : String).data.length
      = 33 + 1 := by decide
  have econs : ("$BLENDER_BIN_DIR/Blender {version}" : String).data
      = '$' :: ("BLENDER_BIN_DIR/Blender {version}" : String).data := by decide
  rw [elen, econs, expandvarsAux_step, if_pos rfl]
  have etake : ("BLENDER_BIN_DIR/Blender {version}" : String).data.takeWhile
      isIdentChar = ("BLENDER_BIN_DIR" : String).data := by decide
  rw [etake, if_neg (by decide)]
  have emk : (⟨("BLENDER_BIN_DIR" : String).data⟩ : String)
      = "BLENDER_BIN_DIR" := rfl
  rw [emk, h]
  have edrop : ("BLENDER_BIN_DIR/Blender {version}" : String).data.drop
      ("BLENDER_BIN_DIR" : String).data.length
      = ("/Blender {version}" : String).data := by decide
  rw [edrop]
  rw [expandvarsAux_dollarFree ambient 33
    ("/Blender {version}" : String).data (by decide)]
  decide

/-! ## Claim theorems -/

/-- C1: `scan_software` returns exactly the sub-list of discovered
candidates the external support predicate accepts, preserving original
relative order; in particular, for candidate versions `2.7`, `2.8`, `3.6`
and the floor `2.8` (with the external comparison accepting exactly versions
at or above the floor), the accepted list is `[2.8, 3.6]` in that order and
`2.7` is excluded without error. -/
theorem scan_software_filters_support :
    (∀ (p : SoftwareVersion → Bool × String) (l : List SoftwareVersion),
      scanLoop p l = l.filter (fun v => (p v).1))
    ∧ (∀ (host : Host) (ambient : Env),
      scan_software host ambient
        = scanLoop host.is_supported (find_software host ambient))
    ∧ scanLoop floorSupport [svOf "2.7", svOf "2.8", svOf "3.6"]
        = [svOf "2.8", svOf "3.6"] := by
  refine ⟨fun p l => ?_, fun host ambient => rfl, by decide⟩
  simpa using scanLoop_go p l []

/-- C2: the only transformation applied to an environment-variable value
before it is embedded in an export line is replacing each literal `"` by
`\"`; every other character is kept unchanged, and in particular the value
`value"with"quotes` is written exactly as `value\"with\"quotes`. -/
theorem export_value_quote_escaping :
    (∀ s : String,
      pyReplace s "\"" "\\\""
        = ⟨s.data.flatMap (fun c => if c = '\"' then ['\\', '\"'] else [c])⟩)
    ∧ pyReplace "value\"with\"quotes" "\"" "\\\""
        = "value\\\"with\\\"quotes" := by
  refine ⟨fun s => ?_, by decide⟩
  exact congrArg String.mk (pyReplaceAux_quote s.data.length s.data le_rfl)

/-- C3: the launch descriptor returned by `prepare_launch` has all of its
fields (path, arguments, environment) equal to `None`, regardless of the
inputs. -/
theorem prepare_launch_descriptor_null :
    ∀ (host : Host) (ambient : Env) (exec_path args : String)
      (file_to_open : Option String),
      (prepare_launch host ambient exec_path args file_to_open).info
        = { path := none, args := none, environ := none } :=
  fun _ _ _ _ _ => rfl

/-- C4 (counterexample): the claim that the startup-script token is left
un-appended when already present fails — with incoming arguments already
equal to the startup-script token, `prepare_launch` still changes the
argument string (it appends the token a second time). -/
theorem startup_arg_counterexample :
    (prepare_launch testHostLinux [] "/b"
        "-P /dl/resources/scripts/startup/Shotgun_menu.py" none).args
      ≠ "-P /dl/resources/scripts/startup/Shotgun_menu.py" := by decide

/-- C4 (amended): the extra argument token naming the fixed startup-script
path is appended to the argument sequence unconditionally — the resulting
argument string is always the incoming arguments followed by `-P ` and the
startup-script path, even when that token is already present. -/
theorem prepare_launch_always_appends_startup_arg :
    ∀ (host : Host) (ambient : Env) (exec_path args : String)
      (file_to_open : Option String),
      (prepare_launch host ambient exec_path args file_to_open).args
        = args ++ ("-P " ++ startup_path host) :=
  fun _ _ _ _ _ => rfl

/-- C5 (counterexample): the generated script body is not just a shebang
line, the export lines, the invocation line and the pause line — at a
concrete input the produced lines differ from that claimed shape (the body
also carries a fixed comment line after the shebang). -/
theorem script_body_counterexample :
    (prepare_launch testHostLinux [] "/b" "" none).script_lines
      ≠ claimedScriptBody
          (prepare_launch testHostLinux [] "/b" "" none).required_env
          "/b" (prepare_launch testHostLinux [] "/b" "" none).args := by decide

/-- C5 (amended): the generated script body consists, in order, of: a
shebang line, a fixed comment line (`# Auto-generated script to launch
Blender in a Terminal`), one `export NAME="value"` line per environment
variable in the built environment (with the double-quote escaping applied to
values), one line invoking the double-quoted executable path followed by the
raw argument string, and a trailing press-enter-to-close pause line — and
nothing else. -/
theorem script_body_shape :
    ∀ (host : Host) (ambient : Env) (exec_path args : String)
      (file_to_open : Option String),
      (prepare_launch host ambient exec_path args file_to_open).script_lines
        = ["#!/bin/bash\n",
           "# Auto-generated script to launch Blender in a Terminal\n"]
          ++ (build_required_env host ambient file_to_open).map exportLine
          ++ ["\"" ++ exec_path ++ "\" "
                ++ (args ++ ("-P " ++ startup_path host)) ++ "\n",
              "read -p \"Press [Enter] to close this window...\"\n"] := by
  intro host ambient exec_path args file_to_open
  show shell_script_lines _ _ _ = _
  simp only [shell_script_lines, foldl_append_map, List.append_assoc]
  simp

/-- C7: for every host platform identifier with no registered path templates
(any platform other than `darwin`), the discovery scan returns an empty list
of candidates and does not raise. -/
theorem find_software_unknown_platform :
    ∀ (host : Host) (ambient : Env),
      host.sys_platform ≠ "darwin" → find_software host ambient = [] := by
  intro host ambient h
  have hb : (host.sys_platform == "darwin") = false :=
    beq_eq_false_iff_ne.mpr h
  have ht : templates_for host.sys_platform = [] := by
    simp [templates_for, EXECUTABLE_TEMPLATES, List.lookup, hb]
  simp [find_software, ht]

/-- Witness for C7 at the concrete platform `linux`. -/
theorem find_software_unknown_platform_witness :
    testHostLinux.sys_platform ≠ "darwin" ∧ find_software testHostLinux [] = [] :=
  ⟨by decide, find_software_unknown_platform testHostLinux [] (by decide)⟩

/-- C6: the built launch environment contains `PYSIDE2_PYTHONPATH` if and
only if that variable is not already set to a non-empty value in the ambient
environment (it is not overridden when set ambiently — it simply does not
appear in the built mapping), while the six other fixed-name variables
(user-scripts directory, module path, bootstrap script path, interpreter
path, engine identifier, serialized context) are always present. -/
theorem required_env_membership :
    ∀ (host : Host) (ambient : Env) (file_to_open : Option String),
      (envGet (build_required_env host ambient file_to_open)
          "PYSIDE2_PYTHONPATH" ≠ none
        ↔ (envGet ambient "PYSIDE2_PYTHONPATH" = none
            ∨ envGet ambient "PYSIDE2_PYTHONPATH" = some ""))
      ∧ envGet (build_required_env host ambient file_to_open)
          "BLENDER_USER_SCRIPTS" = some (scripts_path host)
      ∧ envGet (build_required_env host ambient file_to_open)
          "SGTK_MODULE_PATH" = some (pyReplace host.sgtk_module_path "\\" "/")
      ∧ envGet (build_required_env host ambient file_to_open)
          "SGTK_BLENDER_ENGINE_STARTUP"
          = some (os_path_join3 host.disk_location "startup" "bootstrap.py")
      ∧ envGet (build_required_env host ambient file_to_open)
          "SGTK_BLENDER_ENGINE_PYTHON"
          = some (pyReplace host.sys_executable "\\" "/")
      ∧ envGet (build_required_env host ambient file_to_open)
          "SGTK_ENGINE" = some host.engine_name
      ∧ envGet (build_required_env host ambient file_to_open)
          "SGTK_CONTEXT" = some host.serialized_context := by
  intro host ambient file_to_open
  cases hv : envGet ambient "PYSIDE2_PYTHONPATH" with
  | none =>
    cases file_to_open <;>
      simp [build_required_env, envGet, optFalsy, hv]
  | some v =>
    by_cases hv2 : v = ""
    · subst hv2
      cases file_to_open <;>
        simp [build_required_env, envGet, optFalsy, hv]
    · cases file_to_open <;>
        simp [build_required_env, envGet, optFalsy, hv, hv2]

/-- C8: a template referencing an unset environment variable does not make
discovery raise — the reference is left literally in the expanded template,
and provided the filesystem glob of that literal template matches nothing,
the template contributes zero candidates while the scan continues over the
remaining template. -/
theorem unset_var_template_contributes_nothing :
    ∀ (host : Host) (ambient : Env),
      host.sys_platform = "darwin" →
      envGet ambient "BLENDER_BIN_DIR" = none →
      host.glob_and_match "$BLENDER_BIN_DIR/Blender {version}" = [] →
      expandTemplate ambient "$BLENDER_BIN_DIR/Blender {version}"
          = "$BLENDER_BIN_DIR/Blender {version}"
        ∧ find_software host ambient
          = (host.glob_and_match
              (expandTemplate ambient
                "/Applications/Blender{version}.app/Contents/MacOS/Blender")).map
              (fun m => processMatch host
                (envGet ambient "SGTK_BLENDER_CMD_EXTRA_ARGS") m.1 m.2) := by
  intro host ambient hplat hunset hglob
  have hexp := expandTemplate_unset_blender_bin ambient hunset
  refine ⟨hexp, ?_⟩
  have htemps : templates_for host.sys_platform
      = ["$BLENDER_BIN_DIR/Blender {version}",
         "/Applications/Blender{version}.app/Contents/MacOS/Blender"] := by
    rw [hplat]; rfl
  simp [find_software, htemps, hexp, hglob]

/-- Witness for C8: a darwin host with an empty environment and a glob that
matches nothing. -/
theorem unset_var_template_contributes_nothing_witness :
    (testHostDarwin.sys_platform = "darwin"
      ∧ envGet [] "BLENDER_BIN_DIR" = none
      ∧ testHostDarwin.glob_and_match "$BLENDER_BIN_DIR/Blender {version}" = [])
    ∧ (expandTemplate [] "$BLENDER_BIN_DIR/Blender {version}"
          = "$BLENDER_BIN_DIR/Blender {version}"
        ∧ find_software testHostDarwin []
          = (testHostDarwin.glob_and_match
              (expandTemplate []
                "/Applications/Blender{version}.app/Contents/MacOS/Blender")).map
              (fun m => processMatch testHostDarwin
                (envGet [] "SGTK_BLENDER_CMD_EXTRA_ARGS") m.1 m.2)) :=
  ⟨⟨rfl, rfl, rfl⟩,
   unset_var_template_contributes_nothing testHostDarwin [] rfl rfl rfl⟩

/-- C9: a discovery match whose extracted component mapping lacks a
`"version"` key is not dropped and raises no error — the emitted candidate
carries the single-space string as its version. -/
theorem missing_version_component_defaults_to_space :
    ∀ (host : Host) (ambient : Env) (path : String)
      (kd : List (String × String)),
      host.sys_platform = "darwin" →
      host.glob_and_match
          (expandTemplate ambient "$BLENDER_BIN_DIR/Blender {version}") = [] →
      host.glob_and_match
          (expandTemplate ambient
            "/Applications/Blender{version}.app/Contents/MacOS/Blender")
        = [(path, kd)] →
      envGet kd "version" = none →
      find_software host ambient
        = [{ version := " ", product := "Blender", path := path,
             icon := icon_from_engine host,
             args := argsFromExtra
               (envGet ambient "SGTK_BLENDER_CMD_EXTRA_ARGS") }] := by
  intro host ambient path kd hplat hg0 hg1 hkd
  have htemps : templates_for host.sys_platform
      = ["$BLENDER_BIN_DIR/Blender {version}",
         "/Applications/Blender{version}.app/Contents/MacOS/Blender"] := by
    rw [hplat]; rfl
  simp [find_software, htemps, hg0, hg1, processMatch, hkd]

/-- Witness for C9: a darwin host whose glob yields one `/Applications`
match with an empty component mapping. -/
theorem missing_version_component_defaults_to_space_witness :
    (testHostDarwinMatch.sys_platform = "darwin"
      ∧ testHostDarwinMatch.glob_and_match
          (expandTemplate [] "$BLENDER_BIN_DIR/Blender {version}") = []
      ∧ testHostDarwinMatch.glob_and_match
          (expandTemplate []
            "/Applications/Blender{version}.app/Contents/MacOS/Blender")
        = [("/Applications/Blender.app/Contents/MacOS/Blender", [])]
      ∧ envGet [] "version" = none)
    ∧ find_software testHostDarwinMatch []
        = [{ version := " ", product := "Blender",
             path := "/Applications/Blender.app/Contents/MacOS/Blender",
             icon := icon_from_engine testHostDarwinMatch,
             args := argsFromExtra
               (envGet [] "SGTK_BLENDER_CMD_EXTRA_ARGS") }] :=
  ⟨⟨rfl, by decide, by decide, rfl⟩,
   missing_version_component_defaults_to_space testHostDarwinMatch []
     "/Applications/Blender.app/Contents/MacOS/Blender" []
     rfl (by decide) (by decide) rfl⟩

/-- C10: `prepare_launch` never mutates the ambient process environment —
the environment observed after a call equals the one observed before it (the
body reads `os.environ` once but every computed variable is written only
into the local mapping embedded in the generated script). -/
theorem prepare_launch_preserves_ambient :
    ∀ (host : Host) (ambient : Env) (exec_path args : String)
      (file_to_open : Option String),
      (prepare_launch host ambient exec_path args file_to_open).ambient_after
        = ambient :=
  fun _ _ _ _ _ => rfl

end TkBlender
